import Mathlib

/-
Verification of the tennis-court booking automation core.

This file gives a shallow embedding of the pure computations and of the
control flow of the booking engine (src/src/booking_engine.py), the
authentication handler (src/src/auth.py) and the bookings manager
(src/src/bookings_manager.py).  Pure string/time computations are
translated directly; browser interactions (Playwright calls) are
abstracted into oracle structures whose fields record the outcome each
page interaction would produce, and each modelled function additionally
returns a trace of the page interactions it performs, so that claims
about "no interaction happens" or "exactly one click is issued" are
statable.
-/

/- ==================== Python string primitives ==================== -/

/-- Python `needle in haystack` (substring containment), on char lists:
`needle` occurs as a contiguous infix of `haystack`. -/
def listContainsInfix (needle : List Char) : List Char → Bool
  | [] => needle.isEmpty
  | c :: rest => needle.isPrefixOf (c :: rest) || listContainsInfix needle rest

/-- Python `needle in haystack` on strings. -/
def strContains (haystack needle : String) : Bool :=
  listContainsInfix needle.toList haystack.toList

/-- Python `s.replace('\n', ' ')`: single-character replacement is a
character-wise map. -/
def replaceNewlines (s : String) : String :=
  String.mk (s.toList.map fun c => if c == '\n' then ' ' else c)

/-- Python `s.strip()` with no arguments: drop whitespace from both ends.
Whitespace is modelled by `Char.isWhitespace` (space, tab, CR, LF), which
covers every whitespace character occurring in the strings this program
handles. -/
def pyStrip (s : String) : String :=
  String.mk (((s.toList.dropWhile Char.isWhitespace).reverse.dropWhile
    Char.isWhitespace).reverse)

/-- Python `s.lower()`, character-wise (ASCII suffices for the URLs and
markers this program compares). -/
def pyLower (s : String) : String :=
  String.mk (s.toList.map Char.toLower)

/-- Python `s.replace(pattern, repl)` on char lists: replace
non-overlapping occurrences left to right. -/
def pyReplace (pattern repl : List Char) : List Char → List Char
  | [] => []
  | c :: rest =>
    if pattern.isPrefixOf (c :: rest) && !pattern.isEmpty then
      repl ++ pyReplace pattern repl (rest.drop (pattern.length - 1))
    else
      c :: pyReplace pattern repl rest
termination_by l => l.length
decreasing_by
  · simp only [List.length_cons, List.length_drop]; omega
  · simp only [List.length_cons]; omega

/- ==================== parse_time_slot (booking_engine.py 122-157) ==================== -/

/-
The code searches the cleaned text with the regex
  (\d{1,2}:\d{2}\s*(?:AM|PM))\s*-\s*(\d{1,2}:\d{2}\s*(?:AM|PM))
(`re.search`, leftmost match), then parses group 1 (stripped) with
`datetime.strptime(_, "%I:%M %p")`.  Both are embedded below.  The regex
has no real nondeterminism: `\d{1,2}` is followed by a literal ':' (a
non-digit), and each `\s*` is followed by a non-whitespace character, so
greedy matching is deterministic and the matcher below implements it
directly.
-/

/-- Match `\d{1,2}:\d{2}` at the head of the char list; returns the
matched characters and the remainder.  The two-digit alternative is
tried first (greedy), but at most one alternative can be followed by the
mandatory ':'. -/
def matchHourMin (cs : List Char) : Option (List Char × List Char) :=
  match cs with
  | c1 :: c2 :: c3 :: c4 :: c5 :: rest =>
    if c1.isDigit && c2.isDigit && c3 == ':' && c4.isDigit && c5.isDigit then
      some ([c1, c2, c3, c4, c5], rest)
    else if c1.isDigit && c2 == ':' && c3.isDigit && c4.isDigit then
      some ([c1, c2, c3, c4], c5 :: rest)
    else none
  | [c1, c2, c3, c4] =>
    if c1.isDigit && c2 == ':' && c3.isDigit && c4.isDigit then
      some ([c1, c2, c3, c4], [])
    else none
  | _ => none

/-- Match `AM|PM` (case-sensitive, as in the outer regex) at the head. -/
def matchAmPm (cs : List Char) : Option (List Char × List Char) :=
  match cs with
  | a :: b :: rest =>
    if (a == 'A' || a == 'P') && b == 'M' then some ([a, b], rest) else none
  | _ => none

/-- Match one time atom `\d{1,2}:\d{2}\s*(?:AM|PM)` at the head; returns
the matched characters (the content of a capture group) and the rest. -/
def matchTimeAtom (cs : List Char) : Option (List Char × List Char) :=
  match matchHourMin cs with
  | none => none
  | some (hm, rest) =>
    let ws := rest.takeWhile Char.isWhitespace
    let rest2 := rest.dropWhile Char.isWhitespace
    match matchAmPm rest2 with
    | none => none
    | some (ap, rest3) => some (hm ++ ws ++ ap, rest3)

/-- Match the full range pattern at the head of the list; returns the
content of capture group 1 (the first time atom). -/
def matchTimeRange (cs : List Char) : Option (List Char) :=
  match matchTimeAtom cs with
  | none => none
  | some (g1, rest) =>
    match rest.dropWhile Char.isWhitespace with
    | '-' :: rest3 =>
      match matchTimeAtom (rest3.dropWhile Char.isWhitespace) with
      | none => none
      | some _ => some g1
    | _ => none

/-- `re.search`: try the pattern at every position, leftmost first;
returns capture group 1 of the first match. -/
def searchTimeRange : List Char → Option (List Char)
  | [] => none
  | c :: rest =>
    match matchTimeRange (c :: rest) with
    | some g => some g
    | none => searchTimeRange rest

/-- Whether the string contains a substring matching the range pattern. -/
def containsTimeRange (s : String) : Bool :=
  (searchTimeRange s.toList).isSome

def digitVal (c : Char) : Nat := c.toNat - 48

/-- CPython strptime `%I` directive: regex alternation `1[0-2]|0[1-9]|[1-9]`.
Returns all alternatives in regex order (the engine backtracks through
them), each with the parsed hour and the remaining input. -/
def strptimeHourAlts (cs : List Char) : List (Nat × List Char) :=
  (match cs with
   | '1' :: c :: rest =>
     if '0' ≤ c ∧ c ≤ '2' then [(10 + digitVal c, rest)] else []
   | _ => []) ++
  (match cs with
   | '0' :: c :: rest =>
     if '1' ≤ c ∧ c ≤ '9' then [(digitVal c, rest)] else []
   | _ => []) ++
  (match cs with
   | c :: rest =>
     if '1' ≤ c ∧ c ≤ '9' then [(digitVal c, rest)] else []
   | _ => [])

/-- CPython strptime `%M` directive: regex alternation `[0-5]\d|\d`. -/
def strptimeMinAlts (cs : List Char) : List (Nat × List Char) :=
  (match cs with
   | a :: b :: rest =>
     if ('0' ≤ a ∧ a ≤ '5') ∧ b.isDigit then [(10 * digitVal a + digitVal b, rest)] else []
   | _ => []) ++
  (match cs with
   | a :: rest => if a.isDigit then [(digitVal a, rest)] else []
   | _ => [])

/-- CPython strptime `%p` directive: `AM|PM` case-insensitively.
Returns `true` for PM. -/
def strptimeAmPm (cs : List Char) : Option (Bool × List Char) :=
  match cs with
  | a :: b :: rest =>
    if (a == 'A' || a == 'a') && (b == 'M' || b == 'm') then some (false, rest)
    else if (a == 'P' || a == 'p') && (b == 'M' || b == 'm') then some (true, rest)
    else none
  | _ => none

/-- `datetime.strptime(s, "%I:%M %p")`, reduced to the (hour, minute) it
produces: `%I` then ':', then `%M`, then `\s+` (the format's space), then
`%p`, then end of input (CPython requires the whole string to be
consumed).  `%p` converts the 1-12 hour to 0-23.  Returns `none` where
CPython raises `ValueError`. -/
def strptime_IMp (s : String) : Option (Nat × Nat) :=
  (strptimeHourAlts s.toList).findSome? fun hr =>
    match hr.2 with
    | ':' :: r2 =>
      (strptimeMinAlts r2).findSome? fun mr =>
        if (mr.2.takeWhile Char.isWhitespace).isEmpty then none
        else
          match strptimeAmPm (mr.2.dropWhile Char.isWhitespace) with
          | some (pm, []) =>
            let h12 := hr.1
            let h := if pm then (if h12 == 12 then 12 else h12 + 12)
                     else (if h12 == 12 then 0 else h12)
            some (h, mr.1)
          | _ => none
    | _ => none

/-- `BookingEngine.parse_time_slot` (booking_engine.py 122-157), reduced
to the (hour, minute) of the parsed start time.  (The code combines this
time with the target date via `target_date.replace(hour=..., minute=...,
second=0, microsecond=0)`; only the hour/minute component is ever used
downstream, through `strftime("%H:%M")`.)  Returns `none` exactly where
the code returns `None`: no regex match, or `strptime` raising. -/
def parse_time_slot (time_text : String) : Option (Nat × Nat) :=
  let cleaned := pyStrip (replaceNewlines time_text)
  match searchTimeRange cleaned.toList with
  | none => none
  | some g1 => strptime_IMp (pyStrip (String.mk g1))

/- ==================== time_matches_target and slot filtering ==================== -/

/-- Zero-padded two-digit rendering, as in `strftime("%H"| "%M")`. -/
def pad2 (n : Nat) : String :=
  if n < 10 then "0" ++ toString n else toString n

/-- `strftime("%H:%M")` of a parsed (hour, minute). -/
def fmtHM (h m : Nat) : String := pad2 h ++ ":" ++ pad2 m

/-- `BookingEngine.time_matches_target` (booking_engine.py 159-166). -/
def time_matches_target (time_text : String) (target_times : List String) : Bool :=
  match parse_time_slot time_text with
  | none => false
  | some hm => target_times.contains (fmtHM hm.1 hm.2)

/-- One slot dictionary as built by `find_available_slots`
(booking_engine.py 263-268): keys index, time, court_name, spots_text. -/
structure Slot where
  index : Nat
  time : String
  court_name : String
  spots_text : String
deriving DecidableEq

/-- One time-slot card in the DOM, as read by `find_available_slots`:
the inner text of its spots tag (`none` when `query_selector` finds no
spots element), the inner text of its time header (`none` when absent),
and the nested location block (`none` = no location div, `some none` =
div without a p tag, `some (some txt)` = the p tag's inner text). -/
structure SlotCard where
  spots : Option String
  time : Option String
  location : Option (Option String)
deriving DecidableEq

/-- Court-name extraction from the location block
(booking_engine.py 256-261). -/
def courtNameOf : Option (Option String) → String
  | some (some p) => pyStrip (String.mk (pyReplace "location_on".toList [] p.toList))
  | _ => "Unknown"

/-- The phrase the availability check looks for (booking_engine.py 245). -/
def noSpotsPhrase : String := "No Spots Left"

/-- First pass of `BookingEngine.find_available_slots`
(booking_engine.py 226-274): iterate indices over the slot cards, skip
indices with no paired select control, skip cards with no spots element,
skip when the stripped spots text contains the no-spots phrase or the
paired control is disabled, skip cards with no time element, and collect
the rest.  `disabled` holds the `is_disabled()` value of the select
control paired with each card by list position. -/
def collectAvailableSlots : Nat → List SlotCard → List Bool → List Slot
  | _, [], _ => []
  | _, _ :: _, [] => []
  | i, card :: cards, disabled :: buttons =>
    match card.spots with
    | none => collectAvailableSlots (i + 1) cards buttons
    | some sp =>
      if strContains (pyStrip sp) noSpotsPhrase || disabled then
        collectAvailableSlots (i + 1) cards buttons
      else
        match card.time with
        | none => collectAvailableSlots (i + 1) cards buttons
        | some t =>
          { index := i, time := pyStrip t, court_name := courtNameOf card.location,
            spots_text := pyStrip sp } :: collectAvailableSlots (i + 1) cards buttons

/-- Second pass of `find_available_slots` (booking_engine.py 284-299),
the spec's `filterByTargetTimes`: keep the slots whose time text matches
a target time. -/
def filterByTargetTimes (slots : List Slot) (target_times : List String) : List Slot :=
  slots.filter fun s => time_matches_target s.time target_times

/-- `BookingEngine.find_available_slots` (booking_engine.py 199-312) as a
whole: availability pass then target-time filter. -/
def find_available_slots (cards : List SlotCard) (disabled : List Bool)
    (target_times : List String) : List Slot :=
  filterByTargetTimes (collectAvailableSlots 0 cards disabled) target_times

/- ==================== attempt_booking (booking_engine.py 562-693) ==================== -/

/-- The dictionary returned on booking success (booking_engine.py 655-659). -/
structure BookingResult where
  time : String
  court_name : String
  date : String
deriving DecidableEq

/-- Outcome of processing one court inside the court loop of
`attempt_booking` (booking_engine.py 619-668), abstracting the page:
an exception anywhere in the court's try block (`exn`), the
"no instances available" marker being visible (`noInstances`),
`navigate_to_target_date` returning false (`navFail`), or discovery
completing with the given list of matching slots, together with the
result `book_slot` would return on the first of them (`book_slot`
catches its own exceptions internally and returns a Bool). -/
inductive CourtOutcome
  | exn
  | noInstances
  | navFail
  | slots (matching : List Slot) (bookSuccess : Bool)
deriving DecidableEq

/-- Page interactions observable in the court loop: visiting a court's
page, and attempting checkout (`book_slot`) on a slot at a court. -/
inductive OrchEvent
  | visited (court : String)
  | checkoutAttempt (court : String) (slot : Slot)
deriving DecidableEq

/-- A court yielded a non-empty list of matching slots
(sets `found_any_slots`). -/
def foundMatch : CourtOutcome → Bool
  | .slots (_ :: _) _ => true
  | _ => false

/-- A court's checkout attempt succeeded (the only way the loop
returns a result). -/
def bookSucceeded : CourtOutcome → Bool
  | .slots (_ :: _) true => true
  | _ => false

/-- A court's processing set `booking_error` (exception, or matching
slot found but `book_slot` failed). -/
def errContrib : CourtOutcome → Bool
  | .exn => true
  | .slots (_ :: _) false => true
  | _ => false

/-- Result of the court loop: early return with a booking result, or
loop exhaustion with the final `found_any_slots` / `booking_error`
flags. -/
inductive LoopRes
  | success (r : BookingResult)
  | exhausted (foundAny bookingError : Bool)
deriving DecidableEq

/-- The court loop of `attempt_booking` (booking_engine.py 619-668):
courts in discovery order; per court, on an exception set
`booking_error` and continue; skip on "no instances", failed date
navigation, or empty matching slots; otherwise set `found_any_slots`,
attempt checkout on the FIRST matching slot, return its time / its
court_name field / the target date on success, else set `booking_error`
and continue.  Also returns the trace of page interactions. -/
def courtLoop (date : String) :
    List (String × CourtOutcome) → Bool → Bool → LoopRes × List OrchEvent
  | [], foundAny, err => (.exhausted foundAny err, [])
  | (nm, o) :: rest, foundAny, err =>
    match o with
    | .exn =>
      let r := courtLoop date rest foundAny true
      (r.1, .visited nm :: r.2)
    | .noInstances =>
      let r := courtLoop date rest foundAny err
      (r.1, .visited nm :: r.2)
    | .navFail =>
      let r := courtLoop date rest foundAny err
      (r.1, .visited nm :: r.2)
    | .slots [] _ =>
      let r := courtLoop date rest foundAny err
      (r.1, .visited nm :: r.2)
    | .slots (s :: _) ok =>
      if ok then
        (.success ⟨s.time, s.court_name, date⟩, [.visited nm, .checkoutAttempt nm s])
      else
        let r := courtLoop date rest true true
        (r.1, .visited nm :: .checkoutAttempt nm s :: r.2)

/-- What one iteration of the retry loop observes from the page:
an exception caught by the outer handler (navigation to the program
page failing, etc.), or court enumeration yielding the given courts,
each with its processing outcome. -/
inductive AttemptOutcome
  | outerExn
  | courtsFound (courts : List (String × CourtOutcome))

/-- The configuration fields `attempt_booking` reads. -/
structure OrchConfig where
  maxRetries : Nat
  testMode : Bool
  testCourt : Option String

/-- Python truthiness of the optional `test_target_court` string. -/
def courtFalsy : Option String → Bool
  | none => true
  | some s => s == ""

/-- Control-flow outcome of one iteration of the retry loop: return
(with the given value) from the function, or proceed to the next
iteration. -/
inductive StepRes
  | ret (r : Option BookingResult)
  | retry
deriving DecidableEq

/-- One iteration of the retry loop of `attempt_booking`
(booking_engine.py 579-691): empty court enumeration returns `None`
immediately (line 598-601); test mode narrows the courts to the test
court, returning `None` if it is absent (604-612); then the court loop
runs; afterwards, retry iff `found_any_slots and booking_error`
(670-683), and continue to the next iteration likewise on an
outer-level exception (685-690).  (At the last iteration both "retry"
paths simply fall out of the loop, which returns `None`; the
`attempt < max_retries - 1` guard in the code only controls the delay
wait, not the control flow, so `retry` uniformly means "go round the
loop".) -/
def attemptStep (cfg : OrchConfig) (date : String) :
    AttemptOutcome → StepRes × List OrchEvent
  | .outerExn => (.retry, [])
  | .courtsFound courts =>
    if courts.isEmpty then (.ret none, [])
    else
      match
        (if cfg.testMode && !(courtFalsy cfg.testCourt) then
          match cfg.testCourt with
          | some tc =>
            if courts.any (fun c => c.1 == tc) then
              some (courts.filter (fun c => c.1 == tc))
            else none
          | none => some courts
        else some courts) with
      | none => (.ret none, [])
      | some courts2 =>
        match courtLoop date courts2 false false with
        | (.success r, tr) => (.ret (some r), tr)
        | (.exhausted foundAny err, tr) =>
          if foundAny && err then (.retry, tr) else (.ret none, tr)

/-- The retry loop `for attempt in range(max_retries)` of
`attempt_booking`, from attempt index `i` with `fuel` iterations left.
Returns the function's return value, the index one past the last
attempt performed (so `.2.1 - i` is the number of attempts performed),
and the concatenated interaction trace. -/
def loopAux (cfg : OrchConfig) (env : Nat → AttemptOutcome) (date : String) :
    Nat → Nat → Option BookingResult × Nat × List OrchEvent
  | 0, i => (none, i, [])
  | fuel + 1, i =>
    match attemptStep cfg date (env i) with
    | (.ret r, tr) => (r, i + 1, tr)
    | (.retry, tr) =>
      let rest := loopAux cfg env date fuel (i + 1)
      (rest.1, rest.2.1, tr ++ rest.2.2)

/-- `BookingEngine.attempt_booking` (booking_engine.py 562-693):
run the retry loop for `max_retries` attempts from attempt 0; falling
out of the loop returns `None`.  `env i` is what the page yields on
attempt `i`. -/
def attempt_booking (cfg : OrchConfig) (env : Nat → AttemptOutcome)
    (date : String) : Option BookingResult × Nat × List OrchEvent :=
  loopAux cfg env date cfg.maxRetries 0

/- ==================== cancel_booking (bookings_manager.py 262-408) ==================== -/

/-- The fields of the booking dictionary `cancel_booking` reads
(`booking_info.get(...)`); `none` models an absent key. -/
structure BookingInfo where
  court : Option String
  time : Option String
  reg_id : Option String

/-- Python truthiness of `reg_id` in `if not reg_id` (absent key gives
`None`; an empty string is also falsy). -/
def pyFalsy : Option String → Bool
  | none => true
  | some s => s == ""

/-- Page interactions of `cancel_booking`, in order of the workflow. -/
inductive CancelAction
  | navigateToBookings
  | queryCard
  | clickMoreVert
  | queryCancelLink
  | clickCancelLink
  | queryConfirmDialog
  | clickConfirm
  | reloadPage
  | refetchBookings
  | recheckCard
deriving DecidableEq

/-- Outcome of the final card-visibility re-check
(bookings_manager.py 390-404): the query/visibility check raises, the
card is gone or not visible, or the card is still visible. -/
inductive RecheckOutcome
  | raises
  | cardGone
  | cardVisible
deriving DecidableEq

/-- What the page yields at each step of `cancel_booking`. -/
structure CancelOracle where
  currentUrl : String
  cardFound : Bool
  moreVertFound : Bool
  cancelLinkVisible : Bool
  confirmDialogVisible : Bool
  refetchStillContains : Bool
  recheck : RecheckOutcome

/-- `BookingsManager.cancel_booking` (bookings_manager.py 262-408),
with its interaction trace.  The guard on a missing registration id
(287-289) runs before any page access.  Navigation happens only when
the current URL lacks the registrations path (294-299).  Failures to
find the card, the menu button, the cancel link or the confirmation
dialog return `False` (the disabled-link branch at 334-340 returns
`False` on both of its sub-paths, also when `get_attribute` returns
`None` and the `in` test raises into the outer handler).  After the
confirm click and reload, the booking list is re-fetched; if the
registration id is gone the call succeeds; otherwise the card
visibility is re-checked, with an exception in that re-check treated
as success (401-404). -/
def cancel_booking (o : CancelOracle) (booking : BookingInfo) :
    Bool × List CancelAction :=
  if pyFalsy booking.reg_id then (false, [])
  else
    let nav : List CancelAction :=
      if strContains (pyLower o.currentUrl) "/profile/programregistrations" then []
      else [.navigateToBookings]
    if !o.cardFound then (false, nav ++ [.queryCard])
    else if !o.moreVertFound then (false, nav ++ [.queryCard])
    else if !o.cancelLinkVisible then
      (false, nav ++ [.queryCard, .clickMoreVert, .queryCancelLink])
    else if !o.confirmDialogVisible then
      (false, nav ++ [.queryCard, .clickMoreVert, .queryCancelLink,
        .clickCancelLink, .queryConfirmDialog])
    else
      let base := nav ++ [.queryCard, .clickMoreVert, .queryCancelLink,
        .clickCancelLink, .queryConfirmDialog, .clickConfirm, .reloadPage,
        .refetchBookings]
      if !o.refetchStillContains then (true, base)
      else
        match o.recheck with
        | .raises => (true, base ++ [.recheckCard])
        | .cardGone => (true, base ++ [.recheckCard])
        | .cardVisible => (false, base ++ [.recheckCard])

/- ==================== ensure_authenticated (auth.py 113-218) ==================== -/

/-- Observable actions of the authentication flow. -/
inductive AuthAction
  | gotoBookingUrl
  | cookieConsent
  | authCheck
  | waitMs (ms : Nat)
  | interactiveLogin
  | saveState
deriving DecidableEq

/-- What the page yields to `ensure_authenticated`: the results of the
three successive `is_authenticated` checks, whether the saved browser
state file exists, and whether the interactive (non-headless) login
loop would detect a sign-in within its ceiling. -/
structure AuthOracle where
  check1 : Bool
  check2 : Bool
  check3 : Bool
  stateFileExists : Bool
  interactiveSuccess : Bool

/-- `AuthHandler.authenticate` (auth.py 113-152): in headless mode it
returns `False` immediately without any page interaction; otherwise it
runs the interactive polling loop (modelled as one `interactiveLogin`
action whose success the oracle decides). -/
def authenticate (o : AuthOracle) (headless : Bool) : Bool × List AuthAction :=
  if headless then (false, [])
  else (o.interactiveSuccess, [.interactiveLogin])

/-- `AuthHandler.ensure_authenticated` (auth.py 154-218): navigate to
the booking URL; best-effort cookie-consent dismissal (any failure is
swallowed, so the action is unconditional); check authentication
immediately, then after a 1000 ms wait; in headless mode with a saved
state file, check a third time after a further 3000 ms wait and return
the result; otherwise fall through to `authenticate`, saving the
browser state on its success. -/
def ensure_authenticated (o : AuthOracle) (headless : Bool) :
    Bool × List AuthAction :=
  let pre : List AuthAction := [.gotoBookingUrl, .cookieConsent]
  if o.check1 then (true, pre ++ [.authCheck])
  else if o.check2 then (true, pre ++ [.authCheck, .waitMs 1000, .authCheck])
  else if headless && o.stateFileExists then
    if o.check3 then
      (true, pre ++ [.authCheck, .waitMs 1000, .authCheck, .waitMs 3000, .authCheck])
    else
      (false, pre ++ [.authCheck, .waitMs 1000, .authCheck, .waitMs 3000, .authCheck])
  else
    let a := authenticate o headless
    if a.1 then
      (true, pre ++ [.authCheck, .waitMs 1000, .authCheck] ++ a.2 ++ [.saveState])
    else
      (false, pre ++ [.authCheck, .waitMs 1000, .authCheck] ++ a.2)

/- ==================== navigate_to_target_date (booking_engine.py 21-100) ==================== -/

/-- Clicks issued while navigating to a date. -/
inductive NavAction
  | clickDate
  | clickNextDay
  | clickRightArrow
deriving DecidableEq

/-- Outcome of a wait-for-visible-then-click attempt on the date
control: the click succeeds, the visibility wait times out
(`PlaywrightTimeoutError`), or some other exception is raised. -/
inductive WaitOutcome
  | success
  | timeout
  | otherErr
deriving DecidableEq

/-- What the page yields to `navigate_to_target_date`: visibility of
the "no instances available" marker, the outcome of the first direct
attempt on the date control, whether the adjacent-day control was
visible and clicked, whether the right-arrow pager was present and
visible (and hence clicked), and the outcome of the second direct
attempt. -/
structure NavOracle where
  noInstancesVisible : Bool
  attempt1 : WaitOutcome
  nextDayClicked : Bool
  rightArrowClicked : Bool
  attempt2 : WaitOutcome

/-- `BookingEngine.navigate_to_target_date` (booking_engine.py 21-100):
fail fast on the "no instances available" marker; first direct attempt
on the date control (success returns `True`; a non-timeout error falls
to the outer handler and returns `False`); on timeout, best-effort
click of the next day's control, then of the right-arrow pager, then a
second direct attempt whose timeout or error returns `False`. -/
def navigate_to_target_date (o : NavOracle) : Bool × List NavAction :=
  if o.noInstancesVisible then (false, [])
  else
    match o.attempt1 with
    | .success => (true, [.clickDate])
    | .otherErr => (false, [])
    | .timeout =>
      let t1 : List NavAction := if o.nextDayClicked then [.clickNextDay] else []
      let t2 : List NavAction := if o.rightArrowClicked then [.clickRightArrow] else []
      match o.attempt2 with
      | .success => (true, t1 ++ t2 ++ [.clickDate])
      | .timeout => (false, t1 ++ t2)
      | .otherErr => (false, t1 ++ t2)

/- ==================== Theorems ==================== -/

/-- Every slot emitted by the availability pass sits at a position `j`
(its recorded index, offset by the starting index) whose card has a
spots element whose stripped text avoids the no-spots phrase, and whose
paired select control is not disabled. -/
theorem collectAvailableSlots_mem :
    ∀ (cards : List SlotCard) (i : Nat) (buttons : List Bool) (s : Slot),
      s ∈ collectAvailableSlots i cards buttons →
      ∃ j card sp, s.index = i + j ∧ cards.get? j = some card ∧
        buttons.get? j = some false ∧ card.spots = some sp ∧
        s.spots_text = pyStrip sp ∧
        strContains (pyStrip sp) noSpotsPhrase = false := by
  intro cards
  induction cards with
  | nil => intro i buttons s hs; simp [collectAvailableSlots] at hs
  | cons card cards ih =>
    intro i buttons s hs
    cases buttons with
    | nil => simp [collectAvailableSlots] at hs
    | cons b bs =>
      simp only [collectAvailableSlots] at hs
      split at hs
      · obtain ⟨j, c, sp, e1, e2, e3, e4, e5, e6⟩ := ih (i + 1) bs s hs
        exact ⟨j + 1, c, sp, by omega, e2, e3, e4, e5, e6⟩
      · rename_i sp hsp
        split at hs
        · obtain ⟨j, c, sp', e1, e2, e3, e4, e5, e6⟩ := ih (i + 1) bs s hs
          exact ⟨j + 1, c, sp', by omega, e2, e3, e4, e5, e6⟩
        · rename_i hcond
          simp only [Bool.or_eq_true, not_or, Bool.not_eq_true] at hcond
          split at hs
          · obtain ⟨j, c, sp', e1, e2, e3, e4, e5, e6⟩ := ih (i + 1) bs s hs
            exact ⟨j + 1, c, sp', by omega, e2, e3, e4, e5, e6⟩
          · rename_i t ht
            rcases List.mem_cons.mp hs with hEq | hMem
            · subst hEq
              refine ⟨0, card, sp, by simp, rfl, ?_, hsp, rfl, hcond.1⟩
              simp [hcond.2]
            · obtain ⟨j, c, sp', e1, e2, e3, e4, e5, e6⟩ := ih (i + 1) bs s hMem
              exact ⟨j + 1, c, sp', by omega, e2, e3, e4, e5, e6⟩

/-- C1: during slot enumeration, a slot paired by list position with a
select control is included in the available-slot set only if its
(stripped) spots text does not contain "No Spots Left" and its select
control is not disabled; in particular a card whose spots text contains
the phrase, or whose control is disabled, contributes no slot at its
index, regardless of the other property. -/
theorem c1_availability_filter (cards : List SlotCard) (disabled : List Bool)
    (s : Slot) (hs : s ∈ collectAvailableSlots 0 cards disabled) :
    ∃ card sp, cards.get? s.index = some card ∧ card.spots = some sp ∧
      s.spots_text = pyStrip sp ∧
      strContains s.spots_text noSpotsPhrase = false ∧
      disabled.get? s.index = some false := by
  obtain ⟨j, c, sp, e1, e2, e3, e4, e5, e6⟩ :=
    collectAvailableSlots_mem cards 0 disabled s hs
  have hj : s.index = j := by omega
  refine ⟨c, sp, ?_, e4, e5, ?_, ?_⟩
  · rw [hj]; exact e2
  · rw [e5]; exact e6
  · rw [hj]; exact e3

/-- Witness for C1 at a concrete card list: the single available card
produces a slot, and the theorem's conclusion holds for it. -/
theorem c1_availability_filter_witness :
    ∃ card sp,
      [({ spots := some "3 Spots Left", time := some "7:00 AM - 8:00 AM",
          location := none } : SlotCard)].get?
        (Slot.index ⟨0, "7:00 AM - 8:00 AM", "Unknown", "3 Spots Left"⟩) = some card ∧
      card.spots = some sp ∧
      Slot.spots_text ⟨0, "7:00 AM - 8:00 AM", "Unknown", "3 Spots Left"⟩ = pyStrip sp ∧
      strContains (Slot.spots_text ⟨0, "7:00 AM - 8:00 AM", "Unknown", "3 Spots Left"⟩)
        noSpotsPhrase = false ∧
      [false].get? (Slot.index ⟨0, "7:00 AM - 8:00 AM", "Unknown", "3 Spots Left"⟩) =
        some false :=
  c1_availability_filter
    [{ spots := some "3 Spots Left", time := some "7:00 AM - 8:00 AM", location := none }]
    [false] ⟨0, "7:00 AM - 8:00 AM", "Unknown", "3 Spots Left"⟩ (by decide)

/-- C5: parsing "Program Instance\n7:00 AM - 8:00 AM" yields start time
07:00 (hour 7, minute 0); and whenever the cleaned input contains no
substring matching `H:MM AM/PM - H:MM AM/PM`, parsing returns `None`
explicitly. -/
theorem c5_time_parsing :
    parse_time_slot "Program Instance\n7:00 AM - 8:00 AM" = some (7, 0) ∧
    ∀ s : String, containsTimeRange (pyStrip (replaceNewlines s)) = false →
      parse_time_slot s = none := by
  refine ⟨by decide, ?_⟩
  intro s h
  rw [containsTimeRange] at h
  have hq : searchTimeRange (pyStrip (replaceNewlines s)).data = none := by
    cases hq2 : searchTimeRange (pyStrip (replaceNewlines s)).toList with
    | none => exact hq2
    | some g => rw [hq2] at h; simp at h
  simp [parse_time_slot, hq]

/-- Witness for C5 on an input with no recognizable time range. -/
theorem c5_time_parsing_witness : parse_time_slot "Court A morning session" = none :=
  c5_time_parsing.2 "Court A morning session" (by decide)

/-- C6: filtering by target times is idempotent — filtering an
already-filtered slot list by the same target set returns it
unchanged. -/
theorem c6_filter_idempotent (slots : List Slot) (target_times : List String) :
    filterByTargetTimes (filterByTargetTimes slots target_times) target_times =
      filterByTargetTimes slots target_times := by
  induction slots with
  | nil => rfl
  | cons s ss ih =>
    by_cases h : time_matches_target s.time target_times
    · simp [filterByTargetTimes, List.filter_cons, h] at ih ⊢
    · simp [filterByTargetTimes, List.filter_cons, h] at ih ⊢

/-- When no court in the list yields a matching slot, the court loop
exhausts with `found_any_slots` unchanged and only visit events. -/
theorem courtLoop_no_match (date : String) (cs : List (String × CourtOutcome)) :
    ∀ f e : Bool, (∀ c ∈ cs, foundMatch c.2 = false) →
    ∃ e', courtLoop date cs f e =
      (.exhausted f e', cs.map fun c => OrchEvent.visited c.1) := by
  induction cs with
  | nil => intro f e _; exact ⟨e, rfl⟩
  | cons c cs ih =>
    intro f e h
    obtain ⟨nm, o⟩ := c
    have ho : foundMatch o = false := h (nm, o) (List.mem_cons_self _ _)
    have hrest : ∀ c ∈ cs, foundMatch c.2 = false :=
      fun c hc => h c (List.mem_cons_of_mem _ hc)
    cases o with
    | exn =>
      obtain ⟨e', he⟩ := ih f true hrest
      exact ⟨e', by simp [courtLoop, he]⟩
    | noInstances =>
      obtain ⟨e', he⟩ := ih f e hrest
      exact ⟨e', by simp [courtLoop, he]⟩
    | navFail =>
      obtain ⟨e', he⟩ := ih f e hrest
      exact ⟨e', by simp [courtLoop, he]⟩
    | slots ms ok =>
      cases ms with
      | nil =>
        obtain ⟨e', he⟩ := ih f e hrest
        exact ⟨e', by simp [courtLoop, he]⟩
      | cons s ms => simp [foundMatch] at ho

/-- When no court's checkout succeeds, the court loop exhausts, with
the final flags accumulating which courts found matches and which
contributed a booking error. -/
theorem courtLoop_no_success (date : String) (cs : List (String × CourtOutcome)) :
    ∀ f e : Bool, (∀ c ∈ cs, bookSucceeded c.2 = false) →
    ∃ tr, courtLoop date cs f e =
      (.exhausted (f || cs.any fun c => foundMatch c.2)
        (e || cs.any fun c => errContrib c.2), tr) := by
  induction cs with
  | nil => intro f e _; exact ⟨[], by simp [courtLoop]⟩
  | cons c cs ih =>
    intro f e h
    obtain ⟨nm, o⟩ := c
    have ho : bookSucceeded o = false := h (nm, o) (List.mem_cons_self _ _)
    have hrest : ∀ c ∈ cs, bookSucceeded c.2 = false :=
      fun c hc => h c (List.mem_cons_of_mem _ hc)
    cases o with
    | exn =>
      obtain ⟨tr, htr⟩ := ih f true hrest
      refine ⟨OrchEvent.visited nm :: tr, ?_⟩
      simp [courtLoop, htr, foundMatch, errContrib, List.any_cons]
    | noInstances =>
      obtain ⟨tr, htr⟩ := ih f e hrest
      refine ⟨OrchEvent.visited nm :: tr, ?_⟩
      simp [courtLoop, htr, foundMatch, errContrib, List.any_cons]
    | navFail =>
      obtain ⟨tr, htr⟩ := ih f e hrest
      refine ⟨OrchEvent.visited nm :: tr, ?_⟩
      simp [courtLoop, htr, foundMatch, errContrib, List.any_cons]
    | slots ms ok =>
      cases ms with
      | nil =>
        obtain ⟨tr, htr⟩ := ih f e hrest
        refine ⟨OrchEvent.visited nm :: tr, ?_⟩
        simp [courtLoop, htr, foundMatch, errContrib, List.any_cons]
      | cons s ms =>
        cases ok with
        | true => simp [bookSucceeded] at ho
        | false =>
          obtain ⟨tr, htr⟩ := ih true true hrest
          refine ⟨OrchEvent.visited nm :: OrchEvent.checkoutAttempt nm s :: tr, ?_⟩
          simp [courtLoop, htr, foundMatch, errContrib, List.any_cons]

/-- A court that found a match whose checkout did not succeed
contributed a booking error. -/
theorem errContrib_of_failed (o : CourtOutcome) (h1 : foundMatch o = true)
    (h2 : bookSucceeded o = false) : errContrib o = true := by
  cases o with
  | exn => rfl
  | noInstances => simp [foundMatch] at h1
  | navFail => simp [foundMatch] at h1
  | slots ms ok =>
    cases ms with
    | nil => simp [foundMatch] at h1
    | cons s ms =>
      cases ok with
      | true => simp [bookSucceeded] at h2
      | false => rfl

/-- An attempt whose court enumeration found no matching slot anywhere
returns `None` from the function. -/
theorem attemptStep_no_match (cfg : OrchConfig) (date : String)
    (courts : List (String × CourtOutcome)) (hm : cfg.testMode = false)
    (h : ∀ c ∈ courts, foundMatch c.2 = false) :
    attemptStep cfg date (.courtsFound courts) =
      (.ret none, courts.map fun c => OrchEvent.visited c.1) := by
  cases courts with
  | nil => simp [attemptStep]
  | cons c cs =>
    obtain ⟨e', he⟩ := courtLoop_no_match date (c :: cs) false false h
    simp [attemptStep, hm, he]

/-- An attempt where some court found a matching slot but no checkout
succeeded goes round the retry loop. -/
theorem attemptStep_retry (cfg : OrchConfig) (date : String)
    (courts : List (String × CourtOutcome)) (hm : cfg.testMode = false)
    (hf : ∃ c ∈ courts, foundMatch c.2 = true)
    (hs : ∀ c ∈ courts, bookSucceeded c.2 = false) :
    ∃ tr, attemptStep cfg date (.courtsFound courts) = (.retry, tr) := by
  obtain ⟨tr, htr⟩ := courtLoop_no_success date courts false false hs
  have hany : (courts.any fun c => foundMatch c.2) = true := by
    obtain ⟨c, hc, hfc⟩ := hf
    exact List.any_eq_true.mpr ⟨c, hc, hfc⟩
  have herr : (courts.any fun c => errContrib c.2) = true := by
    obtain ⟨c, hc, hfc⟩ := hf
    exact List.any_eq_true.mpr ⟨c, hc, errContrib_of_failed c.2 hfc (hs c hc)⟩
  cases courts with
  | nil => obtain ⟨c, hc, _⟩ := hf; exact absurd hc (List.not_mem_nil c)
  | cons c cs => exact ⟨tr, by simp [attemptStep, hm, htr, hany, herr]⟩

/-- When every remaining attempt finds a match but no checkout
succeeds, the retry loop exhausts its fuel and returns `None`, having
performed every attempt. -/
theorem loopAux_all_fail (cfg : OrchConfig) (env : Nat → AttemptOutcome)
    (date : String) (hm : cfg.testMode = false) :
    ∀ fuel i,
      (∀ j, i ≤ j → j < i + fuel → ∃ courts,
        env j = .courtsFound courts ∧
        (∃ c ∈ courts, foundMatch c.2 = true) ∧
        (∀ c ∈ courts, bookSucceeded c.2 = false)) →
      (loopAux cfg env date fuel i).1 = none ∧
      (loopAux cfg env date fuel i).2.1 = i + fuel := by
  intro fuel
  induction fuel with
  | zero => intro i _; simp [loopAux]
  | succ fuel ih =>
    intro i h
    obtain ⟨courts, henv, hf, hs⟩ := h i (Nat.le_refl i) (by omega)
    obtain ⟨tr, hstep⟩ := attemptStep_retry cfg date courts hm hf hs
    have hrec := ih (i + 1) (fun j hj1 hj2 => h j (by omega) (by omega))
    refine ⟨?_, ?_⟩
    · simp [loopAux, henv, hstep, hrec.1]
    · simp [loopAux, henv, hstep, hrec.2]
      omega

/-- C2: the retry policy of `attempt_booking` is outcome-sensitive:
(a) an attempt on which no court yields a matching slot returns `None`
from that attempt with no further retry; (b) an attempt on which some
court yields a matching slot but no checkout succeeds (an exception
while processing a court likewise contributing a booking error rather
than aborting) goes round the full court loop again on the next
attempt; (c) when every attempt is of kind (b), the call returns `None`
after performing exactly `max_retries` attempts. -/
theorem c2_retry_policy :
    (∀ (cfg : OrchConfig) (env : Nat → AttemptOutcome) (date : String)
       (fuel i : Nat) (courts : List (String × CourtOutcome)),
       cfg.testMode = false →
       env i = .courtsFound courts →
       (∀ c ∈ courts, foundMatch c.2 = false) →
       loopAux cfg env date (fuel + 1) i =
         (none, i + 1, courts.map fun c => OrchEvent.visited c.1)) ∧
    (∀ (cfg : OrchConfig) (env : Nat → AttemptOutcome) (date : String)
       (fuel i : Nat) (courts : List (String × CourtOutcome)),
       cfg.testMode = false →
       env i = .courtsFound courts →
       (∃ c ∈ courts, foundMatch c.2 = true) →
       (∀ c ∈ courts, bookSucceeded c.2 = false) →
       (loopAux cfg env date (fuel + 1) i).1 = (loopAux cfg env date fuel (i + 1)).1 ∧
       (loopAux cfg env date (fuel + 1) i).2.1 =
         (loopAux cfg env date fuel (i + 1)).2.1) ∧
    (∀ (cfg : OrchConfig) (env : Nat → AttemptOutcome) (date : String),
       cfg.testMode = false →
       (∀ j, j < cfg.maxRetries → ∃ courts,
         env j = .courtsFound courts ∧
         (∃ c ∈ courts, foundMatch c.2 = true) ∧
         (∀ c ∈ courts, bookSucceeded c.2 = false)) →
       (attempt_booking cfg env date).1 = none ∧
       (attempt_booking cfg env date).2.1 = cfg.maxRetries) := by
  refine ⟨?_, ?_, ?_⟩
  · intro cfg env date fuel i courts hm henv h
    have hstep := attemptStep_no_match cfg date courts hm h
    simp [loopAux, henv, hstep]
  · intro cfg env date fuel i courts hm henv hf hs
    obtain ⟨tr, hstep⟩ := attemptStep_retry cfg date courts hm hf hs
    exact ⟨by simp [loopAux, henv, hstep], by simp [loopAux, henv, hstep]⟩
  · intro cfg env date hm h
    have hall := loopAux_all_fail cfg env date hm cfg.maxRetries 0
      (fun j hj1 hj2 => h j (by omega))
    refine ⟨hall.1, ?_⟩
    have h2 := hall.2
    show (loopAux cfg env date cfg.maxRetries 0).2.1 = cfg.maxRetries
    omega

/-- Witness for C2 part (c): two attempts, each finding one matching
slot whose checkout fails, return `None` after exactly 2 attempts. -/
theorem c2_retry_policy_witness :
    (attempt_booking ⟨2, false, none⟩
      (fun _ => .courtsFound
        [("Court 1", .slots [⟨0, "7:00 AM - 8:00 AM", "Court 1", "1 Spot Left"⟩] false)])
      "2026-01-05").1 = none ∧
    (attempt_booking ⟨2, false, none⟩
      (fun _ => .courtsFound
        [("Court 1", .slots [⟨0, "7:00 AM - 8:00 AM", "Court 1", "1 Spot Left"⟩] false)])
      "2026-01-05").2.1 = 2 :=
  c2_retry_policy.2.2 ⟨2, false, none⟩
    (fun _ => .courtsFound
      [("Court 1", .slots [⟨0, "7:00 AM - 8:00 AM", "Court 1", "1 Spot Left"⟩] false)])
    "2026-01-05" rfl
    (fun j _ =>
      ⟨[("Court 1", .slots [⟨0, "7:00 AM - 8:00 AM", "Court 1", "1 Spot Left"⟩] false)],
        rfl,
        ⟨("Court 1", .slots [⟨0, "7:00 AM - 8:00 AM", "Court 1", "1 Spot Left"⟩] false),
          List.mem_singleton.mpr rfl, rfl⟩,
        by decide⟩)

/-- Reaching, after only non-matching courts, a court whose first
matching slot's checkout succeeds: the loop returns that slot's data
immediately, having visited the earlier courts without any checkout and
touched nothing after the successful court. -/
theorem courtLoop_first_success (date nm : String) (s : Slot) (ms : List Slot)
    (suf : List (String × CourtOutcome)) (cs : List (String × CourtOutcome)) :
    ∀ f e : Bool, (∀ c ∈ cs, foundMatch c.2 = false) →
    courtLoop date (cs ++ (nm, .slots (s :: ms) true) :: suf) f e =
      (.success ⟨s.time, s.court_name, date⟩,
       (cs.map fun c => OrchEvent.visited c.1) ++
         [.visited nm, .checkoutAttempt nm s]) := by
  induction cs with
  | nil => intro f e _; simp [courtLoop]
  | cons c cs ih =>
    intro f e h
    obtain ⟨nm2, o⟩ := c
    have ho : foundMatch o = false := h (nm2, o) (List.mem_cons_self _ _)
    have hrest : ∀ c ∈ cs, foundMatch c.2 = false :=
      fun c hc => h c (List.mem_cons_of_mem _ hc)
    cases o with
    | exn => simp [courtLoop, ih f true hrest]
    | noInstances => simp [courtLoop, ih f e hrest]
    | navFail => simp [courtLoop, ih f e hrest]
    | slots ms2 ok =>
      cases ms2 with
      | nil => simp [courtLoop, ih f e hrest]
      | cons s2 ms2 => simp [foundMatch] at ho

/-- C3: courts are processed one at a time in discovery order; checkout
is attempted only on the first matching slot of a court; on checkout
success the call returns that slot's time, court name and the target
date immediately, with no event for any later court; and the
non-matching courts before it are only visited, never the subject of a
checkout attempt. -/
theorem c3_first_match_wins (cfg : OrchConfig) (env : Nat → AttemptOutcome)
    (date nm : String) (s : Slot) (ms : List Slot)
    (cs suf : List (String × CourtOutcome))
    (hm : cfg.testMode = false) (hmax : 1 ≤ cfg.maxRetries)
    (henv : env 0 = .courtsFound (cs ++ (nm, .slots (s :: ms) true) :: suf))
    (hcs : ∀ c ∈ cs, foundMatch c.2 = false) :
    attempt_booking cfg env date =
      (some ⟨s.time, s.court_name, date⟩, 1,
       (cs.map fun c => OrchEvent.visited c.1) ++
         [.visited nm, .checkoutAttempt nm s]) := by
  obtain ⟨k, hk⟩ : ∃ k, cfg.maxRetries = k + 1 :=
    ⟨cfg.maxRetries - 1, by omega⟩
  have hloop := courtLoop_first_success date nm s ms suf cs false false hcs
  have hne : (cs ++ (nm, CourtOutcome.slots (s :: ms) true) :: suf).isEmpty = false := by
    cases cs <;> simp [List.isEmpty]
  rw [attempt_booking, hk]
  simp [loopAux, attemptStep, henv, hm, hne, hloop]

/-- Witness for C3, the spec's two-court scenario: court A has zero
matching slots, court B's single matching slot books successfully; the
result is B's slot data and A sees only discovery, no checkout. -/
theorem c3_first_match_wins_witness :
    attempt_booking ⟨3, false, none⟩
      (fun _ => .courtsFound
        [("Court A", .slots [] true),
         ("Court B", .slots [⟨2, "6:00 PM - 7:00 PM", "Court B", "1 Spot Left"⟩] true)])
      "2026-01-05" =
      (some ⟨"6:00 PM - 7:00 PM", "Court B", "2026-01-05"⟩, 1,
       [.visited "Court A", .visited "Court B",
        .checkoutAttempt "Court B" ⟨2, "6:00 PM - 7:00 PM", "Court B", "1 Spot Left"⟩]) :=
  c3_first_match_wins ⟨3, false, none⟩
    (fun _ => .courtsFound
      [("Court A", .slots [] true),
       ("Court B", .slots [⟨2, "6:00 PM - 7:00 PM", "Court B", "1 Spot Left"⟩] true)])
    "2026-01-05" "Court B" ⟨2, "6:00 PM - 7:00 PM", "Court B", "1 Spot Left"⟩ []
    [("Court A", .slots [] true)] [] rfl (by decide) rfl (by decide)

/-- C9: an attempt on which court enumeration yields no courts returns
`None` from that attempt immediately, performing no further attempt,
whatever fuel (remaining retries) is left. -/
theorem c9_empty_courts :
    (∀ (cfg : OrchConfig) (env : Nat → AttemptOutcome) (date : String)
       (fuel i : Nat),
       env i = .courtsFound [] →
       loopAux cfg env date (fuel + 1) i = (none, i + 1, [])) ∧
    (∀ (cfg : OrchConfig) (env : Nat → AttemptOutcome) (date : String),
       1 ≤ cfg.maxRetries → env 0 = .courtsFound [] →
       attempt_booking cfg env date = (none, 1, [])) := by
  constructor
  · intro cfg env date fuel i h
    simp [loopAux, h, attemptStep]
  · intro cfg env date hmax h
    obtain ⟨k, hk⟩ : ∃ k, cfg.maxRetries = k + 1 :=
      ⟨cfg.maxRetries - 1, by omega⟩
    rw [attempt_booking, hk]
    simp [loopAux, h, attemptStep]

/-- Witness for C9 with five configured retries: the call still returns
`None` after the single attempt. -/
theorem c9_empty_courts_witness :
    attempt_booking ⟨5, false, none⟩ (fun _ => .courtsFound []) "2026-01-05" =
      (none, 1, []) :=
  c9_empty_courts.2 ⟨5, false, none⟩ (fun _ => .courtsFound []) "2026-01-05"
    (by decide) rfl

/-- C4: for every booking whose registration id is absent or empty,
`cancel_booking` returns `False` immediately with an empty interaction
trace — no navigation, no element lookup, no click. -/
theorem c4_cancel_requires_reg_id (o : CancelOracle) (booking : BookingInfo)
    (h : pyFalsy booking.reg_id = true) :
    cancel_booking o booking = (false, []) := by
  simp [cancel_booking, h]

/-- Witness for C4: a booking record with no registration id. -/
theorem c4_cancel_requires_reg_id_witness :
    cancel_booking
      ⟨"https://example.com/profile/programregistrations", true, true, true,
        true, true, .cardGone⟩
      ⟨some "Court 1", some "7:00 AM", none⟩ = (false, []) :=
  c4_cancel_requires_reg_id
    ⟨"https://example.com/profile/programregistrations", true, true, true,
      true, true, .cardGone⟩
    ⟨some "Court 1", some "7:00 AM", none⟩ rfl

/-- C10: when, after the confirmation click, the re-fetched booking
list still contains the registration id and the card-visibility
re-check itself raises, `cancel_booking` returns `True` — success is
assumed although verification was inconclusive, so a `True` result does
not guarantee the booking is gone. -/
theorem c10_inconclusive_verification (o : CancelOracle) (booking : BookingInfo)
    (hreg : pyFalsy booking.reg_id = false)
    (hcard : o.cardFound = true) (hmv : o.moreVertFound = true)
    (hlink : o.cancelLinkVisible = true) (hdialog : o.confirmDialogVisible = true)
    (hstill : o.refetchStillContains = true) (hexn : o.recheck = .raises) :
    (cancel_booking o booking).1 = true ∧ o.refetchStillContains = true := by
  refine ⟨?_, hstill⟩
  simp [cancel_booking, hreg, hcard, hmv, hlink, hdialog, hstill, hexn]

/-- Witness for C10: a concrete oracle on which the re-check raises
while the id is still listed. -/
theorem c10_inconclusive_verification_witness :
    (cancel_booking
      ⟨"https://example.com/profile/programregistrations", true, true, true,
        true, true, .raises⟩
      ⟨some "Court 1", some "7:00 AM", some "12345"⟩).1 = true ∧
    CancelOracle.refetchStillContains
      ⟨"https://example.com/profile/programregistrations", true, true, true,
        true, true, .raises⟩ = true :=
  c10_inconclusive_verification
    ⟨"https://example.com/profile/programregistrations", true, true, true,
      true, true, .raises⟩
    ⟨some "Court 1", some "7:00 AM", some "12345"⟩
    (by decide) rfl rfl rfl rfl rfl rfl

/-- C7: `ensure_authenticated` navigates to the booking URL,
best-effort dismisses the cookie dialog, then checks authentication up
to three times separated by increasing waits (1000 ms, then 3000 ms in
headless mode with a saved state file); when all checks fail in
headless mode the call returns `False` and no interactive login is ever
attempted. -/
theorem c7_headless_terminal (o : AuthOracle)
    (h1 : o.check1 = false) (h2 : o.check2 = false) (h3 : o.check3 = false) :
    (ensure_authenticated o true).1 = false ∧
    (ensure_authenticated o true).2 =
      [.gotoBookingUrl, .cookieConsent, .authCheck, .waitMs 1000, .authCheck] ++
        (if o.stateFileExists then [.waitMs 3000, .authCheck] else []) ∧
    AuthAction.interactiveLogin ∉ (ensure_authenticated o true).2 := by
  cases hs : o.stateFileExists <;>
    simp [ensure_authenticated, authenticate, h1, h2, h3, hs]

/-- Witness for C7 with a saved state file present. -/
theorem c7_headless_terminal_witness :
    (ensure_authenticated ⟨false, false, false, true, true⟩ true).1 = false ∧
    (ensure_authenticated ⟨false, false, false, true, true⟩ true).2 =
      [.gotoBookingUrl, .cookieConsent, .authCheck, .waitMs 1000, .authCheck] ++
        (if AuthOracle.stateFileExists ⟨false, false, false, true, true⟩ then
          [.waitMs 3000, .authCheck] else []) ∧
    AuthAction.interactiveLogin ∉
      (ensure_authenticated ⟨false, false, false, true, true⟩ true).2 :=
  c7_headless_terminal ⟨false, false, false, true, true⟩ rfl rfl rfl

/-- C8: when the date control is not visible within the initial wait
(first attempt times out) but the right-arrow pager is available and
the control becomes visible after its click (second attempt succeeds),
`navigate_to_target_date` returns `True`, and its click trace contains
exactly one pager click, occurring before the single successful date
click that ends the trace. -/
theorem c8_pager_reveals_date (o : NavOracle)
    (hni : o.noInstancesVisible = false) (h1 : o.attempt1 = .timeout)
    (hra : o.rightArrowClicked = true) (h2 : o.attempt2 = .success) :
    (navigate_to_target_date o).1 = true ∧
    ∃ pre, (navigate_to_target_date o).2 = pre ++ [.clickDate] ∧
      pre.count NavAction.clickRightArrow = 1 ∧
      pre.count NavAction.clickDate = 0 := by
  cases hnd : o.nextDayClicked
  · refine ⟨?_, [NavAction.clickRightArrow], ?_, by decide, by decide⟩
    · simp [navigate_to_target_date, hni, h1, hra, h2, hnd]
    · simp [navigate_to_target_date, hni, h1, hra, h2, hnd]
  · refine ⟨?_, [NavAction.clickNextDay, NavAction.clickRightArrow], ?_, by decide, by decide⟩
    · simp [navigate_to_target_date, hni, h1, hra, h2, hnd]
    · simp [navigate_to_target_date, hni, h1, hra, h2, hnd]

/-- Witness for C8 at a concrete oracle: next-day control unavailable,
pager click reveals the date. -/
theorem c8_pager_reveals_date_witness :
    (navigate_to_target_date ⟨false, .timeout, false, true, .success⟩).1 = true ∧
    ∃ pre, (navigate_to_target_date ⟨false, .timeout, false, true, .success⟩).2 =
        pre ++ [.clickDate] ∧
      pre.count NavAction.clickRightArrow = 1 ∧
      pre.count NavAction.clickDate = 0 :=
  c8_pager_reveals_date ⟨false, .timeout, false, true, .success⟩ rfl rfl rfl rfl
